import Mathlib

/-!
Verification of the geometry buffer-management and compression subsystem of
xeogl v0.7 (file src/geometry/geometry.js), against its natural-language
specification.

Modelling conventions:
* JavaScript numbers are modelled as exact rationals extended with the three
  special values Infinity, -Infinity and NaN (`JSNum`); the arithmetic used
  by the quantizer is exact on the inputs of interest, so no float-rounding
  model is needed for the properties proved here.
* Typed-array element conversions are modelled exactly: a store into a
  `Uint16Array` applies ECMAScript ToUint16 (truncate, then reduce modulo
  2^16, with NaN and the infinities mapping to 0); a store into an
  `Int8Array` reduces modulo 2^8 into [-128, 127].
* The platform modelled is the one without the `OES_element_index_uint`
  extension (`bigIndicesSupported = false`), i.e. 16-bit indices, which is
  the case singled out by the specification's capacity invariant.
* Real-valued functions (the oct-encoder, face normals) are modelled over ℝ.
-/

namespace Xeogl

/-- A JavaScript number: a finite (exact) rational, one of the two
infinities, or NaN. -/
inductive JSNum
  | fin (q : ℚ)
  | inf
  | ninf
  | nan
deriving DecidableEq, Repr

namespace JSNum

/-- JavaScript subtraction on numbers. -/
def jsSub : JSNum → JSNum → JSNum
  | nan, _ => nan
  | _, nan => nan
  | fin p, fin q => fin (p - q)
  | fin _, inf => ninf
  | fin _, ninf => inf
  | inf, fin _ => inf
  | ninf, fin _ => ninf
  | inf, inf => nan
  | inf, ninf => inf
  | ninf, inf => ninf
  | ninf, ninf => nan

/-- JavaScript addition on numbers. -/
def jsAdd : JSNum → JSNum → JSNum
  | nan, _ => nan
  | _, nan => nan
  | fin p, fin q => fin (p + q)
  | fin _, inf => inf
  | fin _, ninf => ninf
  | inf, fin _ => inf
  | ninf, fin _ => ninf
  | inf, inf => inf
  | inf, ninf => nan
  | ninf, inf => nan
  | ninf, ninf => ninf

/-- JavaScript multiplication on numbers; `0 * Infinity` is NaN. -/
def jsMul : JSNum → JSNum → JSNum
  | nan, _ => nan
  | _, nan => nan
  | fin p, fin q => fin (p * q)
  | fin p, inf => if p = 0 then nan else if 0 < p then inf else ninf
  | inf, fin p => if p = 0 then nan else if 0 < p then inf else ninf
  | fin p, ninf => if p = 0 then nan else if 0 < p then ninf else inf
  | ninf, fin p => if p = 0 then nan else if 0 < p then ninf else inf
  | inf, inf => inf
  | inf, ninf => ninf
  | ninf, inf => ninf
  | ninf, ninf => inf

/-- JavaScript division on numbers; a nonzero finite number divided by zero
yields a signed infinity (division by zero raises no error in JS). -/
def jsDiv : JSNum → JSNum → JSNum
  | nan, _ => nan
  | _, nan => nan
  | fin p, fin q =>
      if q = 0 then (if p = 0 then nan else if 0 < p then inf else ninf)
      else fin (p / q)
  | fin _, inf => fin 0
  | fin _, ninf => fin 0
  | inf, fin q => if 0 ≤ q then inf else ninf
  | ninf, fin q => if 0 ≤ q then ninf else inf
  | inf, inf => nan
  | inf, ninf => nan
  | ninf, inf => nan
  | ninf, ninf => nan

/-- JavaScript Math.floor; NaN and the infinities are fixed points. -/
def jsFloor : JSNum → JSNum
  | fin q => fin (Int.floor q : ℤ)
  | inf => inf
  | ninf => ninf
  | nan => nan

end JSNum

/-- Truncation toward zero of a rational, as ECMAScript ToIntegerOrInfinity
performs on a finite number. -/
def jsTrunc (q : ℚ) : ℤ :=
  if q < 0 then -(Int.floor (-q)) else Int.floor q

/-- ECMAScript ToUint16, applied when a number is stored into a
`Uint16Array`: NaN and the infinities become 0, a finite number is truncated
and reduced modulo 2^16 into [0, 65536). -/
def toUint16 : JSNum → ℕ
  | JSNum.fin q => ((jsTrunc q) % 65536).toNat
  | _ => 0

/-- The per-axis multiplier `65535 / (max - min)` computed by `quantizeVec3`
and `quantizeVec2` (geometry.js lines 1103-1107 / 1136-1139). -/
def multiplierComp (mn mx : ℚ) : JSNum :=
  JSNum.jsDiv (JSNum.fin 65535) (JSNum.jsSub (JSNum.fin mx) (JSNum.fin mn))

/-- One component of the quantized output array:
`quantized[i] = Math.floor((array[i] - min) * multiplier)` stored into a
`Uint16Array` (geometry.js lines 1110-1112). -/
def quantizeComp (mn mx v : ℚ) : ℕ :=
  toUint16 (JSNum.jsFloor
    (JSNum.jsMul (JSNum.jsSub (JSNum.fin v) (JSNum.fin mn)) (multiplierComp mn mx)))

/-- The per-axis scale entry `(max - min) / 65535` of the decode matrix
built by `quantizeVec3` (geometry.js lines 1117-1121). -/
def decodeScaleComp (mn mx : ℚ) : JSNum :=
  JSNum.jsDiv (JSNum.jsSub (JSNum.fin mx) (JSNum.fin mn)) (JSNum.fin 65535)

/-- Modelled from the spec: the action of the produced decode matrix
`translate(min) · scale((max-min)/65535)` on one axis of a quantized tuple
(the source delegates the matrix product to `xeogl.math.mulMat4` and the
multiply to `xeogl.math.decompressPosition`, which are not under src/):
the decoded component is `min + q * (max - min) / 65535`. -/
def decodeComp (mn mx : ℚ) (q : ℕ) : JSNum :=
  JSNum.jsAdd (JSNum.fin mn) (JSNum.jsMul (JSNum.fin (q : ℚ)) (decodeScaleComp mn mx))

end Xeogl

namespace Xeogl

/-- The modelled platform lacks the `OES_element_index_uint` extension, so
`IndexArrayType` is `Uint16Array` (geometry.js lines 100-101); this is the
case in which the specification's 65535 index ceiling applies. -/
def bigIndicesSupported : Bool := false

/-- `CHUNK_LEN` on the 16-bit-index platform: `64000 * 4` position/color
components per shared chunk ("RGBA is largest item", geometry.js line 111). -/
def CHUNK_LEN : ℕ := 64000 * 4

/-- A geometry state as seen by `SceneVertexBufs`: its id and its attribute
arrays (absent arrays are `none`; an empty JS array is present, not absent). -/
structure PoolGeom where
  id : ℕ
  positions : Option (List ℚ) := none
  normals : Option (List ℚ) := none
  colors : Option (List ℚ) := none
  uv : Option (List ℚ) := none
  indices : Option (List ℕ) := none
deriving DecidableEq, Repr

/-- The attribute-presence signature a `SceneVertexBufs` pool is keyed by
(geometry.js lines 104-109). -/
structure PoolCfg where
  hasPositions : Bool
  hasNormals : Bool
  hasColors : Bool
  hasUVs : Bool
  quantized : Bool
deriving DecidableEq, Repr

/-- Insertion-ordered map update, as JS object property assignment behaves
for the string keys used here: an existing key keeps its position, a new
key is appended. -/
def setAssoc {α : Type} : List (ℕ × α) → ℕ → α → List (ℕ × α)
  | [], k, v => [(k, v)]
  | (k2, v2) :: rest, k, v =>
      if k2 = k then (k2, v) :: rest else (k2, v2) :: setAssoc rest k v

/-- Map lookup; `none` models reading an absent JS object property
(`undefined`). -/
def getAssoc {α : Type} : List (ℕ × α) → ℕ → Option α
  | [], _ => none
  | (k2, v) :: rest, k => if k2 = k then some v else getAssoc rest k

/-- Map deletion, as the JS `delete` operator (keys are unique, so removing
the first binding removes the binding). -/
def delAssoc {α : Type} : List (ℕ × α) → ℕ → List (ℕ × α)
  | [], _ => []
  | (k2, v) :: rest, k => if k2 = k then rest else (k2, v) :: delAssoc rest k

/-- The `geometries` registry update `geometries[geometry.id] = geometry`. -/
def setGeom : List PoolGeom → PoolGeom → List PoolGeom
  | [], g => [g]
  | h :: rest, g => if h.id = g.id then g :: rest else h :: setGeom rest g

/-- The registry lookup `geometries[id]`. -/
def getGeom : List PoolGeom → ℕ → Option PoolGeom
  | [], _ => none
  | h :: rest, k => if h.id = k then some h else getGeom rest k

/-- Registry deletion `delete geometries[id]`. -/
def delGeom : List PoolGeom → ℕ → List PoolGeom
  | [], _ => []
  | h :: rest, k => if h.id = k then rest else h :: delGeom rest k

/-- The mutable state of one `SceneVertexBufs` pool (geometry.js lines
104-124).  `geometries` is insertion-ordered, as JS `for...in` enumeration
is for the (non-integer-like) string keys used as component ids.
`warnings` records the ids refused by `addGeometry`; `outOfRange` records
the adjusted index values reported out of range by `build` (the
`console.error` on line 294).  GPU buffer objects are modelled by what is
written into them: `geometryVertexBufs` maps a geometry id to the index of
the shared chunk whose buffers it uses, and `indicesBufCombined` maps a
geometry id to the contents of its private offset-adjusted index buffer. -/
structure PoolState where
  geometries : List PoolGeom := []
  geometryIndicesOffsets : List (ℕ × ℕ) := []
  geometryVertexBufs : List (ℕ × ℕ) := []
  indicesBufCombined : List (ℕ × List ℕ) := []
  needRebuild : Bool := false
  needAppend : Bool := false
  warnings : List ℕ := []
  outOfRange : List ℕ := []
deriving DecidableEq, Repr

/-- The accumulator threaded through one `build` pass: the pending offset
map, the fresh chunk map, the index-buffer contents, the out-of-range
reports, the current chunk (none before the first geometry), the
accumulation arrays, and the running `indicesOffset`. -/
structure BuildAcc where
  offsets : List (ℕ × ℕ)
  vertexBufs : List (ℕ × ℕ)
  bufsCombined : List (ℕ × List ℕ)
  outOfRange : List ℕ
  curChunk : Option ℕ
  posAcc : List ℚ
  normAcc : List ℚ
  colorAcc : List ℚ
  uvAcc : List ℚ
  indicesOffset : ℕ

/-- The common tail of one `build` loop iteration (geometry.js lines
257-309): record the chunk for this geometry, append its attribute arrays
to the accumulation arrays, record its index offset, write the
offset-adjusted indices into its combined index buffer (the adjustment is
performed in a `Uint16Array` on this platform, so each adjusted value is
reduced modulo 2^16), report any (wrapped) value exceeding `CHUNK_LEN / 3`
as out of range, and advance the running offset by this geometry's vertex
count.  The arguments `chunk`, the four accumulation arrays and
`indicesOffset` are those in effect after the new-chunk decision. -/
def buildAppend (cfg : PoolCfg) (acc : BuildAcc) (g : PoolGeom) (chunk : ℕ)
    (posAcc0 normAcc0 colorAcc0 uvAcc0 : List ℚ) (indicesOffset : ℕ) : BuildAcc :=
  let gpos := g.positions.getD []
  let posAcc := if cfg.hasPositions then posAcc0 ++ gpos else posAcc0
  let normAcc := if cfg.hasNormals then normAcc0 ++ g.normals.getD [] else normAcc0
  let colorAcc := if cfg.hasColors then colorAcc0 ++ g.colors.getD [] else colorAcc0
  let uvAcc := if cfg.hasUVs then uvAcc0 ++ g.uv.getD [] else uvAcc0
  let gidx := g.indices.getD []
  let adjusted := if indicesOffset ≠ 0 then
      gidx.map (fun ix => (ix + indicesOffset) % 65536)
    else gidx
  let reported := if indicesOffset ≠ 0 then
      adjusted.filter (fun ix => decide (CHUNK_LEN < 3 * ix))
    else []
  { offsets := setAssoc acc.offsets g.id indicesOffset
    vertexBufs := setAssoc acc.vertexBufs g.id chunk
    bufsCombined := setAssoc acc.bufsCombined g.id adjusted
    outOfRange := acc.outOfRange ++ reported
    curChunk := some chunk
    posAcc := posAcc
    normAcc := normAcc
    colorAcc := colorAcc
    uvAcc := uvAcc
    indicesOffset := indicesOffset + gpos.length / 3 }

/-- One iteration of the `build` loop body (geometry.js lines 236-310) for
one geometry: start a new chunk when there is none yet or appending this
geometry's positions would exceed `CHUNK_LEN` (`createBufs` flushes and
clears the accumulation arrays of the finalized chunk, per enabled
attribute, and the running index offset restarts at 0); then append the
geometry as in `buildAppend`. -/
def buildStep (cfg : PoolCfg) (acc : BuildAcc) (g : PoolGeom) : BuildAcc :=
  if acc.curChunk = none ∨
      acc.posAcc.length + (g.positions.getD []).length > CHUNK_LEN then
    buildAppend cfg acc g
      (match acc.curChunk with | none => 0 | some c => c + 1)
      (if cfg.hasPositions then [] else acc.posAcc)
      (if cfg.hasNormals then [] else acc.normAcc)
      (if cfg.hasColors then [] else acc.colorAcc)
      (if cfg.hasUVs then [] else acc.uvAcc)
      0
  else
    buildAppend cfg acc g (acc.curChunk.getD 0)
      acc.posAcc acc.normAcc acc.colorAcc acc.uvAcc acc.indicesOffset

/-- The `build` rebuild pass (geometry.js lines 226-319): reset the chunk
map, walk the registry in insertion order, and flush the final chunk.  The
accumulation arrays are empty when `build` starts (every previous build
ended by flushing them in `createBufs`). -/
def build (cfg : PoolCfg) (s : PoolState) : PoolState :=
  let acc := s.geometries.foldl (buildStep cfg)
    { offsets := s.geometryIndicesOffsets
      vertexBufs := []
      bufsCombined := s.indicesBufCombined
      outOfRange := s.outOfRange
      curChunk := none
      posAcc := []
      normAcc := []
      colorAcc := []
      uvAcc := []
      indicesOffset := 0 }
  { s with
    geometryIndicesOffsets := acc.offsets
    geometryVertexBufs := acc.vertexBufs
    indicesBufCombined := acc.bufsCombined
    outOfRange := acc.outOfRange
    needRebuild := false
    needAppend := false }

/-- `addGeometry` (geometry.js lines 128-137): a geometry with no positions
or no indices is warned about and ignored; otherwise it is registered, its
offset entry initialized to 0, and an append is scheduled. -/
def addGeometry (s : PoolState) (g : PoolGeom) : PoolState :=
  if g.positions.isNone || g.indices.isNone then
    { s with warnings := s.warnings ++ [g.id] }
  else
    { s with
      geometries := setGeom s.geometries g
      geometryIndicesOffsets := setAssoc s.geometryIndicesOffsets g.id 0
      needAppend := true }

/-- `removeGeometry` (geometry.js lines 216-224): deregisters the geometry
and marks the pool for a deferred rebuild. -/
def removeGeometry (s : PoolState) (g : PoolGeom) : PoolState :=
  if (getGeom s.geometries g.id).isNone then s
  else
    { s with
      geometries := delGeom s.geometries g.id
      geometryIndicesOffsets := delAssoc s.geometryIndicesOffsets g.id
      needRebuild := true }

/-- `getIndicesOffset` (geometry.js lines 139-144): rebuilds if needed, then
returns `geometryIndicesOffsets[geometry.id]` with no registration check;
`none` models the JS `undefined` read for an unregistered id. -/
def getIndicesOffset (cfg : PoolCfg) (s : PoolState) (g : PoolGeom) :
    PoolState × Option ℕ :=
  let s2 := if s.needRebuild || s.needAppend then build cfg s else s
  (s2, getAssoc s2.geometryIndicesOffsets g.id)

/-- The result of `getVertexBufs`: the shared `nullVertexBufs` singleton,
a shared chunk's buffer set, or a JS `undefined` read. -/
inductive VertexBufsRes
  | nullVertexBufs
  | shared (chunk : ℕ)
  | undef
deriving DecidableEq, Repr

/-- `getVertexBufs` (geometry.js lines 146-154): an unregistered geometry
gets the well-defined `nullVertexBufs`; a registered one triggers a rebuild
if needed and gets its chunk's shared buffer set. -/
def getVertexBufs (cfg : PoolCfg) (s : PoolState) (g : PoolGeom) :
    PoolState × VertexBufsRes :=
  if (getGeom s.geometries g.id).isNone then (s, VertexBufsRes.nullVertexBufs)
  else
    let s2 := if s.needRebuild || s.needAppend then build cfg s else s
    (s2, match getAssoc s2.geometryVertexBufs g.id with
         | some c => VertexBufsRes.shared c
         | none => VertexBufsRes.undef)

end Xeogl


namespace Xeogl

section
open Classical

/-- Dot product of a normal against a candidate decoding (geometry.js lines
1235-1237). -/
noncomputable def dot3 (a b : ℝ × ℝ × ℝ) : ℝ :=
  a.1 * b.1 + a.2.1 * b.2.1 + a.2.2 * b.2.2

/-- Conversion applied when a number is stored into an `Int8Array`:
reduction modulo 2^8 into [-128, 127]. -/
def toInt8 (z : ℤ) : ℤ := (z + 128) % 256 - 128

/-- `octEncodeVec3` (geometry.js lines 1198-1213): project a normal onto
the octahedron, fold into the lower hemisphere when `z < 0` (using the
pre-fold `x`, `y` on both components, as the source's temporaries do), then
round each component with floor or ceil (`xCeil`/`yCeil` select
`Math.ceil`) and store the pair into an `Int8Array`. -/
noncomputable def octEncodeVec3 (n : ℝ × ℝ × ℝ) (xCeil yCeil : Bool) : ℤ × ℤ :=
  let s := |n.1| + |n.2.1| + |n.2.2|
  let x0 := n.1 / s
  let y0 := n.2.1 / s
  let x := if n.2.2 < 0 then (1 - |y0|) * (if 0 ≤ x0 then 1 else -1) else x0
  let y := if n.2.2 < 0 then (1 - |x0|) * (if 0 ≤ y0 then 1 else -1) else y0
  (toInt8 (if xCeil then ⌈x * 127.5 + (if x < 0 then -1 else 0)⌉
           else ⌊x * 127.5 + (if x < 0 then -1 else 0)⌋),
   toInt8 (if yCeil then ⌈y * 127.5 + (if y < 0 then -1 else 0)⌉
           else ⌊y * 127.5 + (if y < 0 then -1 else 0)⌋))

/-- `octDecodeVec2` (geometry.js lines 1216-1232): map the signed bytes
back to [-1, 1] (negative values divide by 127, non-negative by 128),
un-fold the lower hemisphere when `1 - |x| - |y| < 0` (the second
assignment reads the already-updated `x`, as the source does), and
renormalize. -/
noncomputable def octDecodeVec2 (o : ℤ × ℤ) : ℝ × ℝ × ℝ :=
  let x1 : ℝ := (o.1 : ℝ) / (if (o.1 : ℝ) < 0 then 127 else 128)
  let y1 : ℝ := (o.2 : ℝ) / (if (o.2 : ℝ) < 0 then 127 else 128)
  let z := 1 - |x1| - |y1|
  let x2 := if z < 0 then (1 - |y1|) * (if 0 ≤ x1 then 1 else -1) else x1
  let y2 := if z < 0 then (1 - |x2|) * (if 0 ≤ y1 then 1 else -1) else y1
  let len := Real.sqrt (x2 * x2 + y2 * y2 + z * z)
  (x2 / len, y2 / len, z / len)

/-- The best-of-four selection in `octEncode` (geometry.js lines
1164-1193): evaluate the floor/floor, ceil/floor, floor/ceil and ceil/ceil
candidates in that order, decode each, and keep the candidate whose decoded
direction has the (strictly) highest dot product against the original
normal. -/
noncomputable def octEncodeBest (n : ℝ × ℝ × ℝ) : ℤ × ℤ :=
  let c1 := octEncodeVec3 n false false
  let d1 := dot3 n (octDecodeVec2 c1)
  let c2 := octEncodeVec3 n true false
  let d2 := dot3 n (octDecodeVec2 c2)
  let b2 := if d2 > d1 then c2 else c1
  let e2 := if d2 > d1 then d2 else d1
  let c3 := octEncodeVec3 n false true
  let d3 := dot3 n (octDecodeVec2 c3)
  let b3 := if d3 > e2 then c3 else b2
  let e3 := if d3 > e2 then d3 else e2
  let c4 := octEncodeVec3 n true true
  let d4 := dot3 n (octDecodeVec2 c4)
  if d4 > e3 then c4 else b3

/-- `octEncode` over a flat normals array (geometry.js lines 1160-1195):
each consecutive triple is oct-encoded into two signed bytes. -/
noncomputable def octEncode : List ℝ → List ℤ
  | x :: y :: z :: rest =>
      (octEncodeBest (x, y, z)).1 :: (octEncodeBest (x, y, z)).2 :: octEncode rest
  | _ => []

end

end Xeogl


namespace Xeogl

/-- Modelled from the spec: `xeogl.math.DEGTORAD`, the degrees-to-radians
factor applied to the ghost-edge threshold (the math module is not under
src/). -/
noncomputable def DEGTORAD : ℝ := Real.pi / 180

/-- The positions decode matrix as it acts on a position: per-axis scale
and translate entries of `translate(min) · scale((max-min)/65535)`. -/
structure DecodeMatR where
  sx : ℝ
  sy : ℝ
  sz : ℝ
  tx : ℝ
  ty : ℝ
  tz : ℝ

/-- Modelled from the spec: `xeogl.math.decompressPosition` (not under
src/) applies the decode matrix to a quantized position, i.e. per-axis
scale then translate. -/
noncomputable def decompressPosition (m : DecodeMatR) (p : ℝ × ℝ × ℝ) : ℝ × ℝ × ℝ :=
  (m.sx * p.1 + m.tx, m.sy * p.2.1 + m.ty, m.sz * p.2.2 + m.tz)

/-- Reading one vertex position out of a flat positions array at vertex
index `i` (the `ia = indices[i] * 3` addressing of `buildFaces`,
geometry.js lines 1338-1374); meshes index in range, the default 0 only
totalizes the function. -/
noncomputable def getPos3 (positions : List ℝ) (i : ℕ) : ℝ × ℝ × ℝ :=
  (positions.getD (3 * i) 0, positions.getD (3 * i + 1) 0,
   positions.getD (3 * i + 2) 0)

/-- Modelled from the spec: `xeogl.math.subVec3` (not under src/). -/
noncomputable def sub3 (a b : ℝ × ℝ × ℝ) : ℝ × ℝ × ℝ :=
  (a.1 - b.1, a.2.1 - b.2.1, a.2.2 - b.2.2)

/-- Modelled from the spec: `xeogl.math.cross3Vec3` (not under src/). -/
noncomputable def cross3 (a b : ℝ × ℝ × ℝ) : ℝ × ℝ × ℝ :=
  (a.2.1 * b.2.2 - a.2.2 * b.2.1,
   a.2.2 * b.1 - a.1 * b.2.2,
   a.1 * b.2.1 - a.2.1 * b.1)

/-- Modelled from the spec: `xeogl.math.normalizeVec3` (not under src/). -/
noncomputable def normalize3 (v : ℝ × ℝ × ℝ) : ℝ × ℝ × ℝ :=
  let len := Real.sqrt (v.1 * v.1 + v.2.1 * v.2.1 + v.2.2 * v.2.2)
  (v.1 / len, v.2.1 / len, v.2.2 / len)

/-- One face normal (the `buildFaces` loop body, geometry.js lines
1336-1388): `normalize(cross(c - b, a - b))` of the triangle corners,
decoded through the positions decode matrix when present. -/
noncomputable def faceNormal (positions : List ℝ) (dm : Option DecodeMatR)
    (ia ib ic : ℕ) : ℝ × ℝ × ℝ :=
  let a := match dm with
    | some m => decompressPosition m (getPos3 positions ia)
    | none => getPos3 positions ia
  let b := match dm with
    | some m => decompressPosition m (getPos3 positions ib)
    | none => getPos3 positions ib
  let c := match dm with
    | some m => decompressPosition m (getPos3 positions ic)
    | none => getPos3 positions ic
  normalize3 (cross3 (sub3 c b) (sub3 a b))

/-- The `faces` array built by `buildFaces` (geometry.js lines 1332-1390):
one normal per consecutive index triple. -/
noncomputable def faceNormals (positions : List ℝ) (dm : Option DecodeMatR) :
    List ℕ → List (ℝ × ℝ × ℝ)
  | a :: b :: c :: rest =>
      faceNormal positions dm a b c :: faceNormals positions dm rest
  | _ => []

/-- One entry of the `edges` map of `buildEdgesIndices` (geometry.js lines
1424-1433): the normalized (min, max) endpoint pair, the first adjacent
face, and the most recently seen second adjacent face if any. -/
structure EdgeRec where
  index1 : ℕ
  index2 : ℕ
  face1 : ℕ
  face2 : Option ℕ
deriving DecidableEq, Repr

/-- The key of an edge record: its normalized endpoint pair, as the
`"index1,index2"` string key of the JS `edges` object. -/
def keyOf (e : EdgeRec) : ℕ × ℕ := (e.index1, e.index2)

/-- Recording one directed edge `(e1, e2)` of face `f` into the edges map
(geometry.js lines 1416-1433): a fresh key is appended with `face1 := f`,
an existing key has its `face2` overwritten with `f`. -/
def addEdge : List EdgeRec → ℕ → ℕ → ℕ → List EdgeRec
  | [], e1, e2, f =>
      [{ index1 := min e1 e2, index2 := max e1 e2, face1 := f, face2 := none }]
  | e :: rest, e1, e2, f =>
      if e.index1 = min e1 e2 ∧ e.index2 = max e1 e2 then
        { e with face2 := some f } :: rest
      else e :: addEdge rest e1 e2 f

/-- The edge-collection loop of `buildEdgesIndices` (geometry.js lines
1410-1435): walk the triangles, recording each triangle's three edges
under face index `i / 3`; the map is insertion-ordered, as JS `for...in`
enumeration of the string-keyed `edges` object is. -/
def edgeMapAux : List ℕ → ℕ → List EdgeRec → List EdgeRec
  | a :: b :: c :: rest, face, m =>
      edgeMapAux rest (face + 1) (addEdge (addEdge (addEdge m a b face) b c face) c a face)
  | _, _, m => m

/-- The complete edges map of one `buildEdgesIndices` call. -/
def edgeMap (indices : List ℕ) : List EdgeRec := edgeMapAux indices 0 []

section
open Classical

/-- The edge-emission loop of `buildEdgesIndices` (geometry.js lines
1439-1466): an edge with two adjacent faces is skipped when the dot product
of the two face normals exceeds the threshold cosine; every emitted edge
contributes its offset-adjusted endpoint pair. -/
noncomputable def filterEdges (faces : List (ℝ × ℝ × ℝ)) (thresholdDot : ℝ)
    (indicesOffset : ℕ) : List EdgeRec → List (ℕ × ℕ)
  | [] => []
  | e :: rest =>
      match e.face2 with
      | some f2 =>
          if dot3 (faces.getD e.face1 (0, 0, 0)) (faces.getD f2 (0, 0, 0)) >
              thresholdDot then
            filterEdges faces thresholdDot indicesOffset rest
          else
            (e.index1 + indicesOffset, e.index2 + indicesOffset) ::
              filterEdges faces thresholdDot indicesOffset rest
      | none =>
          (e.index1 + indicesOffset, e.index2 + indicesOffset) ::
            filterEdges faces thresholdDot indicesOffset rest

/-- `buildEdgesIndices` (geometry.js lines 1392-1469), as the list of
emitted offset-adjusted endpoint pairs; the threshold cosine is
`Math.cos(DEGTORAD * ghostEdgeThreshold)`.  (The source finally flattens
the pairs into a Uint16Array, or a Uint32Array when some emitted index
exceeds 65535; the emitted values here all fit the selected width, so the
pair list carries the full information.) -/
noncomputable def buildEdgesIndices (positions : List ℝ) (indices : List ℕ)
    (dm : Option DecodeMatR) (indicesOffset : ℕ) (ghostEdgeThreshold : ℝ) :
    List (ℕ × ℕ) :=
  filterEdges (faceNormals positions dm indices)
    (Real.cos (DEGTORAD * ghostEdgeThreshold)) indicesOffset (edgeMap indices)

end

end Xeogl


namespace Xeogl

/-- Number.MAX_VALUE, the initial bound seed of `getBounds` (geometry.js
lines 1081-1084), as an exact rational. -/
def NUMBER_MAX_VALUE : ℚ := 2 ^ 1024 - 2 ^ 971

/-- The `getBounds` loop with stride 3 (geometry.js lines 1077-1095). -/
def getBounds3Aux : List ℚ → ℚ × ℚ × ℚ → ℚ × ℚ × ℚ → (ℚ × ℚ × ℚ) × (ℚ × ℚ × ℚ)
  | x :: y :: z :: rest, mn, mx =>
      getBounds3Aux rest (min mn.1 x, min mn.2.1 y, min mn.2.2 z)
        (max mx.1 x, max mx.2.1 y, max mx.2.2 z)
  | _, mn, mx => (mn, mx)

/-- `getBounds(array, 3)`: per-axis min and max over all position triples. -/
def getBounds3 (l : List ℚ) : (ℚ × ℚ × ℚ) × (ℚ × ℚ × ℚ) :=
  getBounds3Aux l (NUMBER_MAX_VALUE, NUMBER_MAX_VALUE, NUMBER_MAX_VALUE)
    (-NUMBER_MAX_VALUE, -NUMBER_MAX_VALUE, -NUMBER_MAX_VALUE)

/-- The `getBounds` loop with stride 2. -/
def getBounds2Aux : List ℚ → ℚ × ℚ → ℚ × ℚ → (ℚ × ℚ) × (ℚ × ℚ)
  | u :: v :: rest, mn, mx =>
      getBounds2Aux rest (min mn.1 u, min mn.2 v) (max mx.1 u, max mx.2 v)
  | _, mn, mx => (mn, mx)

/-- `getBounds(array, 2)`: per-axis min and max over all UV pairs. -/
def getBounds2 (l : List ℚ) : (ℚ × ℚ) × (ℚ × ℚ) :=
  getBounds2Aux l (NUMBER_MAX_VALUE, NUMBER_MAX_VALUE)
    (-NUMBER_MAX_VALUE, -NUMBER_MAX_VALUE)

/-- The quantized Uint16Array produced by `quantizeVec3` (geometry.js lines
1101-1113), component-wise through `quantizeComp`. -/
def quantizeVec3Arr : List ℚ → ℚ × ℚ × ℚ → ℚ × ℚ × ℚ → List ℕ
  | x :: y :: z :: rest, mn, mx =>
      quantizeComp mn.1 mx.1 x :: quantizeComp mn.2.1 mx.2.1 y ::
        quantizeComp mn.2.2 mx.2.2 z :: quantizeVec3Arr rest mn mx
  | _, _, _ => []

/-- The quantized Uint16Array produced by `quantizeVec2` (geometry.js lines
1134-1144). -/
def quantizeVec2Arr : List ℚ → ℚ × ℚ → ℚ × ℚ → List ℕ
  | u :: v :: rest, mn, mx =>
      quantizeComp mn.1 mx.1 u :: quantizeComp mn.2 mx.2 v ::
        quantizeVec2Arr rest mn mx
  | _, _, _ => []

/-- The positions decode matrix built by `quantizeVec3` (geometry.js lines
1114-1122): the nontrivial entries of `translate(min) · scale(step)` are
the per-axis scales on the diagonal and the translation in the last
column. -/
structure DecodeMat3 where
  sx : JSNum
  sy : JSNum
  sz : JSNum
  tx : ℚ
  ty : ℚ
  tz : ℚ
deriving DecidableEq, Repr

/-- The decode matrix of `quantizeVec3` for the given bounds. -/
def decodeMat3Of (mn mx : ℚ × ℚ × ℚ) : DecodeMat3 :=
  { sx := decodeScaleComp mn.1 mx.1
    sy := decodeScaleComp mn.2.1 mx.2.1
    sz := decodeScaleComp mn.2.2 mx.2.2
    tx := mn.1, ty := mn.2.1, tz := mn.2.2 }

/-- The UV decode matrix built by `quantizeVec2` (geometry.js lines
1145-1152). -/
structure DecodeMat2 where
  su : JSNum
  sv : JSNum
  tu : ℚ
  tv : ℚ
deriving DecidableEq, Repr

/-- The decode matrix of `quantizeVec2` for the given bounds. -/
def decodeMat2Of (mn mx : ℚ × ℚ) : DecodeMat2 :=
  { su := decodeScaleComp mn.1 mx.1, sv := decodeScaleComp mn.2 mx.2
    tu := mn.1, tv := mn.2 }

/-- A stored attribute array: `Uint16Array` (quantized positions/UVs),
`Int8Array` (oct-encoded normals), or `Float32Array` holding caller-given
rationals (`f32Q`) or computed reals (`f32R`). -/
inductive AttrArray
  | u16 (l : List ℕ)
  | i8 (l : List ℤ)
  | f32Q (l : List ℚ)
  | f32R (l : List ℝ)

/-- The `length` of a stored typed array. -/
def AttrArray.len : AttrArray → ℕ
  | u16 l => l.length
  | i8 l => l.length
  | f32Q l => l.length
  | f32R l => l.length

/-- Errors `this.error(...)` can report during `_init`. -/
inductive InitError
  | unsupportedPrimitive
  | uint32IndicesUnsupported
deriving DecidableEq, Repr

/-- The construction configuration of a Geometry (geometry.js lines 79-92
and `_init`): absent entries are `none`.  `indicesAreUint32` and
`indicesAreUint16` model `cfg.indices.constructor === Uint32Array` and
`=== Uint16Array`; `quantized` is the already-coerced `!!cfg.quantized`. -/
structure GeomCfg where
  primitive : Option String := none
  positions : Option (List ℚ) := none
  normals : Option (List ℝ) := none
  uv : Option (List ℚ) := none
  colors : Option (List ℚ) := none
  indices : Option (List ℕ) := none
  indicesAreUint32 : Bool := false
  indicesAreUint16 : Bool := false
  autoVertexNormals : Bool := false
  quantized : Bool := false
  combined : Bool := false
  ghostEdgeThreshold : Option ℚ := none

/-- The WebGL primitive enumerator stored into `state.primitive`
(geometry.js lines 477-512); unsupported names fall back to
`gl.TRIANGLES`. -/
def primitiveEnumOf : String → ℕ
  | "points" => 0
  | "lines" => 1
  | "line-loop" => 2
  | "line-strip" => 3
  | "triangles" => 4
  | "triangle-strip" => 5
  | "triangle-fan" => 6
  | _ => 4

/-- `_buildHash` (geometry.js lines 604-625): the shader-variant /
pool-bucketing hash built from the primitive enumerator, the attribute
presence flags ("n" also when `autoVertexNormals`), and the quantized
flag. -/
def buildHash (primEnum : ℕ) (hasP hasC hasN hasU quantized : Bool) : String :=
  "/g" ++ "/" ++ toString primEnum ++ ";" ++
  (if hasP then "p" else "") ++ (if hasC then "c" else "") ++
  (if hasN then "n" else "") ++ (if hasU then "u" else "") ++
  (if quantized then "cp" else "") ++ ";"

/-- The state of one GeometryRecord after `_init` (geometry.js lines
385-571).  GPU buffer objects, the scene wiring and the lazily built
derived buffers are modelled elsewhere or out of scope; `created` records
whether `_init` ran to completion (it returns early, before firing
"created", when 32-bit indices are given on this platform). -/
structure GeomState where
  quantized : Bool
  combined : Bool
  autoVertexNormals : Bool
  primitiveEnum : ℕ
  primitiveName : String
  positions : Option AttrArray
  normals : Option AttrArray
  colors : Option (List ℚ)
  uv : Option AttrArray
  indices : Option (List ℕ)
  positionsDecodeMatrix : Option DecodeMat3
  uvDecodeMatrix : Option DecodeMat2
  ghostEdgeThreshold : ℚ
  hash : String
  errors : List InitError
  created : Bool
  boundaryDirty : Bool
  aabbDirty : Bool
  obbDirty : Bool

/-- `_init` (geometry.js lines 385-571): resolve the primitive name
(reporting unsupported names and falling back to triangles), quantize or
store each given attribute (positions and UVs through `getBounds` and the
quantizers with their decode matrices, normals through the oct-encoder),
store `cfg.ghostEdgeThreshold || 2.0`, and handle indices: 32-bit indices
on this platform are reported and `_init` returns early (hash not built,
"created" not fired); otherwise a plain JS array is converted through the
platform `IndexArrayType` (`Uint16Array` here, reducing each value modulo
2^16) and construction completes. -/
noncomputable def mkGeometry (cfg : GeomCfg) : GeomState :=
  let primName := match cfg.primitive with | none => "triangles" | some p => p
  let primOk : Bool := decide (primName ∈
    ["points", "lines", "line-loop", "line-strip", "triangles",
     "triangle-strip", "triangle-fan"])
  let errs0 : List InitError :=
    if primOk then [] else [InitError.unsupportedPrimitive]
  let positionsStored : Option AttrArray :=
    match cfg.positions with
    | none => none
    | some arr =>
        if cfg.quantized then
          some (AttrArray.u16 (quantizeVec3Arr arr (getBounds3 arr).1 (getBounds3 arr).2))
        else some (AttrArray.f32Q arr)
  let positionsDM : Option DecodeMat3 :=
    match cfg.positions with
    | none => none
    | some arr =>
        if cfg.quantized then some (decodeMat3Of (getBounds3 arr).1 (getBounds3 arr).2)
        else none
  let uvStored : Option AttrArray :=
    match cfg.uv with
    | none => none
    | some arr =>
        if cfg.quantized then
          some (AttrArray.u16 (quantizeVec2Arr arr (getBounds2 arr).1 (getBounds2 arr).2))
        else some (AttrArray.f32Q arr)
  let uvDM : Option DecodeMat2 :=
    match cfg.uv with
    | none => none
    | some arr =>
        if cfg.quantized then some (decodeMat2Of (getBounds2 arr).1 (getBounds2 arr).2)
        else none
  let normalsStored : Option AttrArray :=
    match cfg.normals with
    | none => none
    | some arr =>
        if cfg.quantized then some (AttrArray.i8 (octEncode arr))
        else some (AttrArray.f32R arr)
  let threshold : ℚ :=
    match cfg.ghostEdgeThreshold with
    | none => 2
    | some t => if t = 0 then 2 else t
  if cfg.indices.isSome && (!bigIndicesSupported && cfg.indicesAreUint32) then
    { quantized := cfg.quantized, combined := cfg.combined
      autoVertexNormals := cfg.autoVertexNormals
      primitiveEnum := primitiveEnumOf primName, primitiveName := primName
      positions := positionsStored, normals := normalsStored
      colors := cfg.colors, uv := uvStored, indices := none
      positionsDecodeMatrix := positionsDM, uvDecodeMatrix := uvDM
      ghostEdgeThreshold := threshold, hash := ""
      errors := errs0 ++ [InitError.uint32IndicesUnsupported], created := false
      boundaryDirty := true, aabbDirty := true, obbDirty := true }
  else
    let indicesStored : Option (List ℕ) :=
      match cfg.indices with
      | none => none
      | some arr =>
          some (if cfg.indicesAreUint32 || cfg.indicesAreUint16 then arr
                else arr.map (fun ix => ix % 65536))
    { quantized := cfg.quantized, combined := cfg.combined
      autoVertexNormals := cfg.autoVertexNormals
      primitiveEnum := primitiveEnumOf primName, primitiveName := primName
      positions := positionsStored, normals := normalsStored
      colors := cfg.colors, uv := uvStored, indices := indicesStored
      positionsDecodeMatrix := positionsDM, uvDecodeMatrix := uvDM
      ghostEdgeThreshold := threshold
      hash := buildHash (primitiveEnumOf primName) positionsStored.isSome
        cfg.colors.isSome (normalsStored.isSome || cfg.autoVertexNormals)
        uvStored.isSome cfg.quantized
      errors := errs0, created := true
      boundaryDirty := true, aabbDirty := true, obbDirty := true }

/-- Errors the positions setter can report. -/
inductive SetErr
  | quantizedImmutable
  | noPositions
  | wrongLength
deriving DecidableEq, Repr

/-- `_setBoundaryDirty` (geometry.js lines 999-1020): marks the cached
boundary volumes stale (returning early when already dirty). -/
def setBoundaryDirty (g : GeomState) : GeomState :=
  if g.boundaryDirty then g
  else { g with boundaryDirty := true, aabbDirty := true, obbDirty := true }

/-- The `positions` setter (geometry.js lines 751-776): quantized geometry
is immutable (reported, no-op); missing positions or a length mismatch is
reported and rejected; otherwise the backing store is updated in place
(`positions.set(newPositions)`, converting per the array's element type)
and the boundary is invalidated. -/
def setGeometryPositions (g : GeomState) (newPositions : List ℚ) :
    GeomState × Option SetErr :=
  if g.quantized then (g, some SetErr.quantizedImmutable)
  else
    match g.positions with
    | none => (g, some SetErr.noPositions)
    | some stored =>
        if stored.len ≠ newPositions.length then (g, some SetErr.wrongLength)
        else
          let updated : AttrArray :=
            match stored with
            | AttrArray.u16 _ =>
                AttrArray.u16 (newPositions.map (fun q => ((jsTrunc q) % 65536).toNat))
            | AttrArray.i8 _ =>
                AttrArray.i8 (newPositions.map (fun q => toInt8 (jsTrunc q)))
            | AttrArray.f32Q _ => AttrArray.f32Q newPositions
            | AttrArray.f32R _ => AttrArray.f32Q newPositions
          (setBoundaryDirty { g with positions := some updated }, none)

end Xeogl

namespace Xeogl

/-- C2: for a position component `v` lying within its axis bounds
`min ≤ v ≤ max` with `max > min`, quantizing through
`floor((v - min) * (65535 / (max - min)))` (geometry.js lines 1103-1112)
and decoding through the produced decode matrix yields a finite value that
differs from `v` by at most one quantization step `(max - min) / 65535`. -/
theorem quantizeVec3_roundtrip_step (mn mx v : ℚ)
    (hrange : mn < mx) (hlo : mn ≤ v) (hhi : v ≤ mx) :
    ∃ w : ℚ, decodeComp mn mx (quantizeComp mn mx v) = JSNum.fin w ∧
      |w - v| ≤ (mx - mn) / 65535 := by
  have hdpos : (0:ℚ) < mx - mn := by linarith
  have hd : mx - mn ≠ 0 := ne_of_gt hdpos
  set t : ℚ := (v - mn) * (65535 / (mx - mn)) with ht
  have ht0 : 0 ≤ t := mul_nonneg (by linarith) (by positivity)
  have ht65535 : t ≤ 65535 := by
    have h1 : (v - mn) * (65535 / (mx - mn)) ≤ (mx - mn) * (65535 / (mx - mn)) :=
      mul_le_mul_of_nonneg_right (by linarith) (by positivity)
    have h2 : (mx - mn) * (65535 / (mx - mn)) = 65535 := by field_simp
    rw [ht]; linarith
  set k : ℤ := Int.floor t with hk
  have hk0 : 0 ≤ k := Int.le_floor.mpr (by exact_mod_cast ht0)
  have hk65535 : k ≤ 65535 := by
    have h3 := Int.floor_le_floor (α := ℚ) ht65535
    simpa using h3
  have hkq0 : (0:ℚ) ≤ (k : ℚ) := by exact_mod_cast hk0
  have hq : quantizeComp mn mx v = k.toNat := by
    simp only [quantizeComp, multiplierComp, JSNum.jsSub, JSNum.jsDiv, if_neg hd,
      JSNum.jsMul, JSNum.jsFloor, toUint16, jsTrunc, ← ht, ← hk,
      if_neg (not_lt.mpr hkq0), Int.floor_intCast]
    rw [Int.emod_eq_of_lt hk0 (by omega)]
  have hdec : decodeComp mn mx k.toNat =
      JSNum.fin (mn + (k : ℚ) * ((mx - mn) / 65535)) := by
    have h65535 : (65535 : ℚ) ≠ 0 := by norm_num
    simp only [decodeComp, decodeScaleComp, JSNum.jsSub, JSNum.jsDiv, if_neg h65535,
      JSNum.jsMul, JSNum.jsAdd]
    have hcast : ((k.toNat : ℚ)) = (k : ℚ) := by exact_mod_cast Int.toNat_of_nonneg hk0
    rw [hcast]
  refine ⟨mn + (k : ℚ) * ((mx - mn) / 65535), by rw [hq, hdec], ?_⟩
  have hfl : (k : ℚ) ≤ t := Int.floor_le t
  have hfl2 : t < (k : ℚ) + 1 := Int.lt_floor_add_one t
  have hts : t * ((mx - mn) / 65535) = v - mn := by
    rw [ht]; field_simp
  have hspos : (0:ℚ) < (mx - mn) / 65535 := by positivity
  have hw : mn + (k : ℚ) * ((mx - mn) / 65535) - v =
      ((k : ℚ) - t) * ((mx - mn) / 65535) := by
    have : ((k : ℚ) - t) * ((mx - mn) / 65535) =
        (k : ℚ) * ((mx - mn) / 65535) - t * ((mx - mn) / 65535) := by ring
    rw [this, hts]; ring
  rw [hw, abs_le]
  constructor
  · have h4 : (-1 : ℚ) ≤ (k : ℚ) - t := by linarith
    have h5 := mul_le_mul_of_nonneg_right h4 (le_of_lt hspos)
    linarith
  · have h4 : (k : ℚ) - t ≤ 0 := by linarith
    have h5 := mul_le_mul_of_nonneg_right h4 (le_of_lt hspos)
    nlinarith

/-- Witness for C2 at min 0, max 10, v 3. -/
theorem quantizeVec3_roundtrip_step_witness :
    ∃ w : ℚ, decodeComp 0 10 (quantizeComp 0 10 3) = JSNum.fin w ∧
      |w - 3| ≤ (10 - 0) / 65535 :=
  quantizeVec3_roundtrip_step 0 10 3 (by norm_num) (by norm_num) (by norm_num)

/-- C6 counterexample: on a degenerate axis (max = min = 1) the decode
matrix scale entry produced by `quantizeVec3` is 0, not 1 as the claim
states ("treat the scale factor for that axis as 1"). -/
theorem quantize_degenerate_scale_not_one :
    decodeScaleComp 1 1 = JSNum.fin 0 ∧ decodeScaleComp 1 1 ≠ JSNum.fin 1 := by
  constructor
  · simp [decodeScaleComp, JSNum.jsSub, JSNum.jsDiv]
  · simp [decodeScaleComp, JSNum.jsSub, JSNum.jsDiv]

/-- C6 amended: on a degenerate axis (max = min) the division by the zero
range produces an Infinity multiplier (no error is raised), every quantized
component on that axis is stored as 0 (the NaN or Infinity product is
converted to 0 by the Uint16Array store), the decode matrix scale entry for
the axis is the finite value 0 (not 1), and every decoded component on that
axis collapses to the finite value min. -/
theorem quantize_degenerate_axis (mn v : ℚ) :
    multiplierComp mn mn = JSNum.inf ∧
    quantizeComp mn mn v = 0 ∧
    decodeScaleComp mn mn = JSNum.fin 0 ∧
    ∀ q : ℕ, decodeComp mn mn q = JSNum.fin mn := by
  have h1 : multiplierComp mn mn = JSNum.inf := by
    simp [multiplierComp, JSNum.jsSub, JSNum.jsDiv]
  refine ⟨h1, ?_, ?_, ?_⟩
  · unfold quantizeComp
    rw [h1]
    rcases lt_trichotomy (v - mn) 0 with h | h | h
    · simp [JSNum.jsSub, JSNum.jsMul, JSNum.jsFloor, toUint16, h.ne, not_lt_of_gt h]
    · simp [JSNum.jsSub, JSNum.jsMul, JSNum.jsFloor, toUint16, h]
    · simp [JSNum.jsSub, JSNum.jsMul, JSNum.jsFloor, toUint16, h.ne.symm, h]
  · simp [decodeScaleComp, JSNum.jsSub, JSNum.jsDiv]
  · intro q
    simp [decodeComp, decodeScaleComp, JSNum.jsSub, JSNum.jsDiv, JSNum.jsMul, JSNum.jsAdd]

end Xeogl


namespace Xeogl

/-- C1 (failing input): on the 16-bit-index platform, two geometries of
40000 vertices each (120000 position components, any values) are appended
to the same chunk, because their combined 240000 position components stay
below CHUNK_LEN = 256000; the second geometry's index 39999 is
offset-adjusted to 39999 + 40000 = 79999, which exceeds 65535, and is
silently stored wrapped as 14463 in the Uint16Array combined index buffer;
no new chunk is started and no out-of-range diagnostic is reported (the
guard compares the already-wrapped value against CHUNK_LEN / 3).  This
violates the chunk-capacity invariant the code's own out-of-range check is
meant to enforce. -/
theorem build_chunk_overflow_16bit (p : List ℚ) (hp : p.length = 120000) :
    (build { hasPositions := true, hasNormals := false, hasColors := false,
             hasUVs := false, quantized := true }
      (addGeometry
        (addGeometry {} { id := 1, positions := some p, indices := some [0] })
        { id := 2, positions := some p, indices := some [39999] })).geometryVertexBufs
      = [(1, 0), (2, 0)] ∧
    (build { hasPositions := true, hasNormals := false, hasColors := false,
             hasUVs := false, quantized := true }
      (addGeometry
        (addGeometry {} { id := 1, positions := some p, indices := some [0] })
        { id := 2, positions := some p, indices := some [39999] })).geometryIndicesOffsets
      = [(1, 0), (2, 40000)] ∧
    (build { hasPositions := true, hasNormals := false, hasColors := false,
             hasUVs := false, quantized := true }
      (addGeometry
        (addGeometry {} { id := 1, positions := some p, indices := some [0] })
        { id := 2, positions := some p, indices := some [39999] })).indicesBufCombined
      = [(1, [0]), (2, [14463])] ∧
    (build { hasPositions := true, hasNormals := false, hasColors := false,
             hasUVs := false, quantized := true }
      (addGeometry
        (addGeometry {} { id := 1, positions := some p, indices := some [0] })
        { id := 2, positions := some p, indices := some [39999] })).outOfRange = [] ∧
    65535 < 39999 + 40000 ∧ (39999 + 40000) % 65536 = 14463 := by
  refine ⟨?_, ?_, ?_, ?_, by norm_num, by norm_num⟩ <;>
  · norm_num [build, List.foldl, buildStep, buildAppend, addGeometry, setGeom,
      setAssoc, hp, CHUNK_LEN]
    simp [Option.some_ne_none]

/-- Witness for C1 at the concrete position array of 120000 zeros. -/
theorem build_chunk_overflow_16bit_witness :
    (List.replicate 120000 (0:ℚ)).length = 120000 ∧
    (build { hasPositions := true, hasNormals := false, hasColors := false,
             hasUVs := false, quantized := true }
      (addGeometry
        (addGeometry {} { id := 1, positions := some (List.replicate 120000 (0:ℚ)),
                          indices := some [0] })
        { id := 2, positions := some (List.replicate 120000 (0:ℚ)),
          indices := some [39999] })).indicesBufCombined
      = [(1, [0]), (2, [14463])] :=
  ⟨List.length_replicate 120000 0,
   (build_chunk_overflow_16bit (List.replicate 120000 (0:ℚ))
     (List.length_replicate 120000 0)).2.2.1⟩

end Xeogl

namespace Xeogl

/-- C8: a rebuild walks the registry in insertion order and assigns each
geometry an offset equal to the running vertex count: adding A, B, C (all
fitting in one chunk, each nonempty) yields offsets 0, |A|, |A|+|B| —
strictly increasing, non-overlapping ranges matching the vertex counts —
and removing B and re-adding it (which re-inserts it at the end of the
registry) leaves A's offset unchanged at 0, reassigning only B and the
geometries added after B. -/
theorem build_offset_determinism (cfg : PoolCfg) (hP : cfg.hasPositions = true) (gA gB gC : PoolGeom)
    (pA pB pC : List ℚ) (iA iB iC : List ℕ)
    (hpA : gA.positions = some pA) (hpB : gB.positions = some pB)
    (hpC : gC.positions = some pC)
    (hiA : gA.indices = some iA) (hiB : gB.indices = some iB)
    (hiC : gC.indices = some iC)
    (hAB : gA.id ≠ gB.id) (hAC : gA.id ≠ gC.id) (hBC : gB.id ≠ gC.id)
    (hfit : pA.length + pB.length + pC.length ≤ CHUNK_LEN)
    (hA3 : 0 < pA.length / 3) (hB3 : 0 < pB.length / 3) (hC3 : 0 < pC.length / 3) :
    (getAssoc (build cfg (addGeometry (addGeometry (addGeometry {} gA) gB) gC)).geometryIndicesOffsets gA.id = some 0 ∧
     getAssoc (build cfg (addGeometry (addGeometry (addGeometry {} gA) gB) gC)).geometryIndicesOffsets gB.id = some (pA.length / 3) ∧
     getAssoc (build cfg (addGeometry (addGeometry (addGeometry {} gA) gB) gC)).geometryIndicesOffsets gC.id = some (pA.length / 3 + pB.length / 3)) ∧
    (0 < pA.length / 3 ∧ pA.length / 3 < pA.length / 3 + pB.length / 3) ∧
    (getAssoc (build cfg (addGeometry (removeGeometry (build cfg (addGeometry (addGeometry (addGeometry {} gA) gB) gC)) gB) gB)).geometryIndicesOffsets gA.id = some 0 ∧
     getAssoc (build cfg (addGeometry (removeGeometry (build cfg (addGeometry (addGeometry (addGeometry {} gA) gB) gC)) gB) gB)).geometryIndicesOffsets gC.id = some (pA.length / 3) ∧
     getAssoc (build cfg (addGeometry (removeGeometry (build cfg (addGeometry (addGeometry (addGeometry {} gA) gB) gC)) gB) gB)).geometryIndicesOffsets gB.id = some (pA.length / 3 + pC.length / 3)) := by
  have hBA := hAB.symm
  have hCA := hAC.symm
  have hCB := hBC.symm
  have h1 : ¬ (pA.length + pB.length > CHUNK_LEN) := by omega
  have h2 : ¬ (pA.length + pB.length + pC.length > CHUNK_LEN) := by omega
  have h3 : ¬ (pA.length + pC.length > CHUNK_LEN) := by omega
  have h4 : ¬ (pA.length + pC.length + pB.length > CHUNK_LEN) := by omega
  have hA0 : pA.length / 3 ≠ 0 := by omega
  have hB0 : pB.length / 3 ≠ 0 := by omega
  have hC0 : pC.length / 3 ≠ 0 := by omega
  have h2r : ¬ (CHUNK_LEN < pA.length + (pB.length + pC.length)) := by omega
  have h4r : ¬ (CHUNK_LEN < pA.length + (pC.length + pB.length)) := by omega
  have h1l : ¬ (CHUNK_LEN < pA.length + pB.length) := by omega
  have h2l : ¬ (CHUNK_LEN < pA.length + pB.length + pC.length) := by omega
  have h3l : ¬ (CHUNK_LEN < pA.length + pC.length) := by omega
  have h4l : ¬ (CHUNK_LEN < pA.length + pC.length + pB.length) := by omega
  refine ⟨?_, by omega, ?_⟩ <;>
  · norm_num [build, List.foldl, buildStep, buildAppend, addGeometry,
      removeGeometry, getGeom, setGeom, delGeom, delAssoc, setAssoc, getAssoc,
      hpA, hpB, hpC, hiA, hiB, hiC, hAB, hAC, hBC, hBA, hCA, hCB,
      h1, h2, h3, h4, h2r, h4r, h1l, h2l, h3l, h4l, hA0, hB0, hC0, hP]
    simp [Option.some_ne_none, getAssoc, setAssoc, delAssoc, setGeom, delGeom,
      getGeom, hAB, hAC, hBC, hBA, hCA, hCB,
      h1, h2, h3, h4, h2r, h4r, h1l, h2l, h3l, h4l, hA0, hB0, hC0, hP]

/-- Witness for C8: three one/two/one-vertex geometries with ids 1, 2, 3. -/
theorem build_offset_determinism_witness :
    (getAssoc (build { hasPositions := true, hasNormals := false, hasColors := false,
                       hasUVs := false, quantized := false }
      (addGeometry (addGeometry (addGeometry {}
        { id := 1, positions := some [0, 0, 0], indices := some [0] })
        { id := 2, positions := some [0, 0, 0, 0, 0, 0], indices := some [0, 1] })
        { id := 3, positions := some [0, 0, 0], indices := some [0] })).geometryIndicesOffsets 1
      = some 0 ∧
     getAssoc (build { hasPositions := true, hasNormals := false, hasColors := false,
                       hasUVs := false, quantized := false }
      (addGeometry (addGeometry (addGeometry {}
        { id := 1, positions := some [0, 0, 0], indices := some [0] })
        { id := 2, positions := some [0, 0, 0, 0, 0, 0], indices := some [0, 1] })
        { id := 3, positions := some [0, 0, 0], indices := some [0] })).geometryIndicesOffsets 2
      = some 1 ∧
     getAssoc (build { hasPositions := true, hasNormals := false, hasColors := false,
                       hasUVs := false, quantized := false }
      (addGeometry (addGeometry (addGeometry {}
        { id := 1, positions := some [0, 0, 0], indices := some [0] })
        { id := 2, positions := some [0, 0, 0, 0, 0, 0], indices := some [0, 1] })
        { id := 3, positions := some [0, 0, 0], indices := some [0] })).geometryIndicesOffsets 3
      = some 3) ∧
    (0 < 1 ∧ 1 < 3) ∧
    (getAssoc (build { hasPositions := true, hasNormals := false, hasColors := false,
                       hasUVs := false, quantized := false }
      (addGeometry (removeGeometry (build { hasPositions := true, hasNormals := false,
                                            hasColors := false, hasUVs := false,
                                            quantized := false }
        (addGeometry (addGeometry (addGeometry {}
          { id := 1, positions := some [0, 0, 0], indices := some [0] })
          { id := 2, positions := some [0, 0, 0, 0, 0, 0], indices := some [0, 1] })
          { id := 3, positions := some [0, 0, 0], indices := some [0] }))
        { id := 2, positions := some [0, 0, 0, 0, 0, 0], indices := some [0, 1] })
        { id := 2, positions := some [0, 0, 0, 0, 0, 0],
          indices := some [0, 1] })).geometryIndicesOffsets 1 = some 0 ∧
     getAssoc (build { hasPositions := true, hasNormals := false, hasColors := false,
                       hasUVs := false, quantized := false }
      (addGeometry (removeGeometry (build { hasPositions := true, hasNormals := false,
                                            hasColors := false, hasUVs := false,
                                            quantized := false }
        (addGeometry (addGeometry (addGeometry {}
          { id := 1, positions := some [0, 0, 0], indices := some [0] })
          { id := 2, positions := some [0, 0, 0, 0, 0, 0], indices := some [0, 1] })
          { id := 3, positions := some [0, 0, 0], indices := some [0] }))
        { id := 2, positions := some [0, 0, 0, 0, 0, 0], indices := some [0, 1] })
        { id := 2, positions := some [0, 0, 0, 0, 0, 0],
          indices := some [0, 1] })).geometryIndicesOffsets 3 = some 1 ∧
     getAssoc (build { hasPositions := true, hasNormals := false, hasColors := false,
                       hasUVs := false, quantized := false }
      (addGeometry (removeGeometry (build { hasPositions := true, hasNormals := false,
                                            hasColors := false, hasUVs := false,
                                            quantized := false }
        (addGeometry (addGeometry (addGeometry {}
          { id := 1, positions := some [0, 0, 0], indices := some [0] })
          { id := 2, positions := some [0, 0, 0, 0, 0, 0], indices := some [0, 1] })
          { id := 3, positions := some [0, 0, 0], indices := some [0] }))
        { id := 2, positions := some [0, 0, 0, 0, 0, 0], indices := some [0, 1] })
        { id := 2, positions := some [0, 0, 0, 0, 0, 0],
          indices := some [0, 1] })).geometryIndicesOffsets 2 = some 2) :=
  build_offset_determinism
    { hasPositions := true, hasNormals := false, hasColors := false,
      hasUVs := false, quantized := false } rfl
    { id := 1, positions := some [0, 0, 0], indices := some [0] }
    { id := 2, positions := some [0, 0, 0, 0, 0, 0], indices := some [0, 1] }
    { id := 3, positions := some [0, 0, 0], indices := some [0] }
    [0, 0, 0] [0, 0, 0, 0, 0, 0] [0, 0, 0] [0] [0, 1] [0]
    rfl rfl rfl rfl rfl rfl
    (by norm_num) (by norm_num) (by norm_num)
    (by norm_num [CHUNK_LEN]) (by norm_num) (by norm_num) (by norm_num)

end Xeogl

namespace Xeogl

/-- Updating one key of a JS-object map leaves lookups of other keys
unchanged. -/
theorem getAssoc_setAssoc_ne {α : Type} (m : List (ℕ × α)) (k k2 : ℕ) (v : α)
    (h : k2 ≠ k) : getAssoc (setAssoc m k v) k2 = getAssoc m k2 := by
  induction m with
  | nil => simp [setAssoc, getAssoc, h, Ne.symm h]
  | cons e rest ih =>
    by_cases he : e.1 = k
    · simp [setAssoc, getAssoc, he, h, Ne.symm h]
    · simp only [setAssoc, getAssoc]
      rw [if_neg he]
      by_cases he2 : e.1 = k2 <;> simp [getAssoc, he2, ih]

/-- A registry lookup misses exactly when no registered geometry has the
queried id. -/
theorem getGeom_eq_none_iff (l : List PoolGeom) (k : ℕ) :
    getGeom l k = none ↔ ∀ g ∈ l, g.id ≠ k := by
  induction l with
  | nil => simp [getGeom]
  | cons g rest ih =>
    by_cases hg : g.id = k <;> simp [getGeom, hg, ih]

/-- Both branches of one `build` iteration record this geometry's offset by
updating the offset map at this geometry's id. -/
theorem buildStep_offsets_shape (cfg : PoolCfg) (acc : BuildAcc) (g : PoolGeom) :
    ∃ v, (buildStep cfg acc g).offsets = setAssoc acc.offsets g.id v := by
  unfold buildStep buildAppend
  by_cases hc : acc.curChunk = none ∨
      acc.posAcc.length + (g.positions.getD []).length > CHUNK_LEN
  · rw [if_pos hc]; exact ⟨0, rfl⟩
  · rw [if_neg hc]; exact ⟨acc.indicesOffset, rfl⟩

/-- A `build` pass never creates an offset entry for an id that is neither
registered nor already present in the offset map. -/
theorem foldl_buildStep_offsets_absent (cfg : PoolCfg) (k : ℕ) :
    ∀ (l : List PoolGeom) (acc : BuildAcc), (∀ g ∈ l, g.id ≠ k) →
      getAssoc acc.offsets k = none →
      getAssoc (List.foldl (buildStep cfg) acc l).offsets k = none := by
  intro l
  induction l with
  | nil => intro acc _ h; simpa using h
  | cons g rest ih =>
    intro acc hl hacc
    rw [List.foldl_cons]
    refine ih _ (fun g2 hg2 => hl g2 (List.mem_cons_of_mem _ hg2)) ?_
    obtain ⟨v, hv⟩ := buildStep_offsets_shape cfg acc g
    rw [hv, getAssoc_setAssoc_ne _ _ _ _ (Ne.symm (hl g (List.mem_cons_self _ _)))]
    exact hacc

/-- C9 counterexample: querying `getIndicesOffset` for a geometry that was
never registered returns the JS `undefined` (modelled as `none`), not a
well-defined null result, because the source reads
`geometryIndicesOffsets[geometry.id]` with no registration check. -/
theorem getIndicesOffset_unregistered_undefined :
    (getIndicesOffset
      { hasPositions := true, hasNormals := false, hasColors := false,
        hasUVs := false, quantized := false }
      (addGeometry {} { id := 1, positions := some [0, 0, 0], indices := some [0] })
      { id := 2 }).2 = none := by
  norm_num [getIndicesOffset, build, List.foldl, buildStep, buildAppend,
    addGeometry, setGeom, setAssoc, getAssoc, CHUNK_LEN]

/-- C9 amended: for a geometry that is not registered (no registry entry and
no stale offset entry), `getVertexBufs` returns the well-defined
`nullVertexBufs` singleton, while `getIndicesOffset` performs no
registration check and returns JS `undefined` (`none`); neither call
throws. -/
theorem pool_queries_unregistered (cfg : PoolCfg) (s : PoolState) (g : PoolGeom)
    (hreg : getGeom s.geometries g.id = none)
    (hoff : getAssoc s.geometryIndicesOffsets g.id = none) :
    (getVertexBufs cfg s g).2 = VertexBufsRes.nullVertexBufs ∧
    (getIndicesOffset cfg s g).2 = none := by
  constructor
  · unfold getVertexBufs
    rw [hreg]
    rfl
  · unfold getIndicesOffset
    by_cases hb : (s.needRebuild || s.needAppend) = true
    · rw [if_pos hb]
      simp only [build]
      exact foldl_buildStep_offsets_absent cfg g.id s.geometries _
        ((getGeom_eq_none_iff _ _).mp hreg) hoff
    · rw [if_neg hb]
      exact hoff

/-- Witness for C9 amended at a one-geometry pool queried with an
unregistered geometry. -/
theorem pool_queries_unregistered_witness :
    (getVertexBufs
      { hasPositions := true, hasNormals := false, hasColors := false,
        hasUVs := false, quantized := false }
      (addGeometry {} { id := 1, positions := some [0, 0, 0], indices := some [0] })
      { id := 2 }).2 = VertexBufsRes.nullVertexBufs ∧
    (getIndicesOffset
      { hasPositions := true, hasNormals := false, hasColors := false,
        hasUVs := false, quantized := false }
      (addGeometry {} { id := 1, positions := some [0, 0, 0], indices := some [0] })
      { id := 2 }).2 = none :=
  pool_queries_unregistered _ _ _ (by norm_num [addGeometry, setGeom, getGeom])
    (by norm_num [addGeometry, setAssoc, getAssoc])

/-- C5 amended (pool side): `addGeometry` refuses a geometry with no
positions or no indices: it logs a warning and leaves the registry, the
offset map and the pending-append flag unchanged. -/
theorem addGeometry_missing_attributes_ignored (s : PoolState) (g : PoolGeom)
    (h : g.positions = none ∨ g.indices = none) :
    (addGeometry s g).geometries = s.geometries ∧
    (addGeometry s g).geometryIndicesOffsets = s.geometryIndicesOffsets ∧
    (addGeometry s g).needAppend = s.needAppend ∧
    (addGeometry s g).warnings = s.warnings ++ [g.id] := by
  rcases h with h | h <;> simp [addGeometry, h]

/-- Witness for C5 amended at a geometry with neither positions nor
indices. -/
theorem addGeometry_missing_attributes_ignored_witness :
    (addGeometry {} { id := 7 }).geometries = ({} : PoolState).geometries ∧
    (addGeometry {} { id := 7 }).geometryIndicesOffsets
      = ({} : PoolState).geometryIndicesOffsets ∧
    (addGeometry {} { id := 7 }).needAppend = ({} : PoolState).needAppend ∧
    (addGeometry {} { id := 7 }).warnings = ({} : PoolState).warnings ++ [7] :=
  addGeometry_missing_attributes_ignored {} { id := 7 } (Or.inl rfl)

end Xeogl

namespace Xeogl

/-- C3: for a unit normal, the oct-encoder's best-of-four selection returns
a candidate whose reconstruction dot product is at least that of each of
the four floor/ceil rounding candidates it considered. -/
theorem octEncode_best_of_four (n : ℝ × ℝ × ℝ)
    (hunit : n.1 ^ 2 + n.2.1 ^ 2 + n.2.2 ^ 2 = 1) :
    dot3 n (octDecodeVec2 (octEncodeBest n)) ≥
      dot3 n (octDecodeVec2 (octEncodeVec3 n false false)) ∧
    dot3 n (octDecodeVec2 (octEncodeBest n)) ≥
      dot3 n (octDecodeVec2 (octEncodeVec3 n true false)) ∧
    dot3 n (octDecodeVec2 (octEncodeBest n)) ≥
      dot3 n (octDecodeVec2 (octEncodeVec3 n false true)) ∧
    dot3 n (octDecodeVec2 (octEncodeBest n)) ≥
      dot3 n (octDecodeVec2 (octEncodeVec3 n true true)) := by
  unfold octEncodeBest
  dsimp only
  split_ifs with h1 h2 h3 h4 h5 h6 h7 <;>
    refine ⟨?_, ?_, ?_, ?_⟩ <;> linarith

/-- Witness for C3 at the unit normal (1, 0, 0). -/
theorem octEncode_best_of_four_witness :
    ((1:ℝ) ^ 2 + (0:ℝ) ^ 2 + (0:ℝ) ^ 2 = 1) ∧
    (dot3 (1, 0, 0) (octDecodeVec2 (octEncodeBest (1, 0, 0))) ≥
      dot3 (1, 0, 0) (octDecodeVec2 (octEncodeVec3 (1, 0, 0) false false))) :=
  ⟨by norm_num, (octEncode_best_of_four (1, 0, 0) (by norm_num)).1⟩

end Xeogl

namespace Xeogl

/-- Membership in the emitted edge list: a pair is emitted exactly when
some recorded edge has that offset-adjusted endpoint pair and either has no
second face or passes the coplanarity test. -/
theorem mem_filterEdges (faces : List (ℝ × ℝ × ℝ)) (tDot : ℝ) (off : ℕ)
    (l : List EdgeRec) (p : ℕ × ℕ) :
    p ∈ filterEdges faces tDot off l ↔
      ∃ e, e ∈ l ∧ p = (e.index1 + off, e.index2 + off) ∧
        ∀ f2, e.face2 = some f2 →
          ¬ dot3 (faces.getD e.face1 (0, 0, 0)) (faces.getD f2 (0, 0, 0)) > tDot := by
  induction l with
  | nil => simp [filterEdges]
  | cons e rest ih =>
    rcases hf : e.face2 with _ | f2
    · simp only [filterEdges, hf, List.mem_cons, ih]
      constructor
      · rintro (h | ⟨e2, he2, hp, hk⟩)
        · exact ⟨e, Or.inl rfl, h, by simp [hf]⟩
        · exact ⟨e2, Or.inr he2, hp, hk⟩
      · rintro ⟨e2, he2 | he2, hp, hk⟩
        · subst he2; exact Or.inl hp
        · exact Or.inr ⟨e2, he2, hp, hk⟩
    · by_cases hd : dot3 (faces.getD e.face1 (0, 0, 0)) (faces.getD f2 (0, 0, 0)) > tDot
      · simp only [filterEdges, hf, if_pos hd, ih]
        constructor
        · rintro ⟨e2, he2, hp, hk⟩
          exact ⟨e2, List.mem_cons_of_mem _ he2, hp, hk⟩
        · rintro ⟨e2, he2, hp, hk⟩
          rcases List.mem_cons.mp he2 with he2 | he2
          · subst he2; exact absurd hd (hk f2 hf)
          · exact ⟨e2, he2, hp, hk⟩
      · simp only [filterEdges, hf, if_neg hd, List.mem_cons, ih]
        constructor
        · rintro (h | ⟨e2, he2, hp, hk⟩)
          · refine ⟨e, Or.inl rfl, h, ?_⟩
            intro f2x hf2x
            rw [hf] at hf2x
            cases hf2x
            exact hd
          · exact ⟨e2, Or.inr he2, hp, hk⟩
        · rintro ⟨e2, he2 | he2, hp, hk⟩
          · subst he2; exact Or.inl hp
          · exact Or.inr ⟨e2, he2, hp, hk⟩

/-- Recording an edge either leaves the key list unchanged (key present) or
appends the fresh key. -/
theorem keys_addEdge (m : List EdgeRec) (e1 e2 f : ℕ) :
    ((addEdge m e1 e2 f).map keyOf = m.map keyOf) ∨
    ((min e1 e2, max e1 e2) ∉ m.map keyOf ∧
      (addEdge m e1 e2 f).map keyOf = m.map keyOf ++ [(min e1 e2, max e1 e2)]) := by
  induction m with
  | nil => right; simp [addEdge, keyOf]
  | cons e rest ih =>
    by_cases he : e.index1 = min e1 e2 ∧ e.index2 = max e1 e2
    · left; simp [addEdge, he, keyOf]
    · rcases ih with h | ⟨hnm, h⟩
      · left; simp [addEdge, he, keyOf, h]
      · right
        have hkey : keyOf e ≠ (min e1 e2, max e1 e2) := by
          simp only [keyOf, Prod.mk.injEq, Ne]
          exact fun hcon => he hcon
        constructor
        · simp only [List.map_cons, List.mem_cons]
          rintro (hc | hc)
          · exact hkey hc.symm
          · exact hnm hc
        · simp [addEdge, he, h]

/-- Recording an edge preserves key uniqueness. -/
theorem nodup_keys_addEdge (m : List EdgeRec) (e1 e2 f : ℕ)
    (h : (m.map keyOf).Nodup) : ((addEdge m e1 e2 f).map keyOf).Nodup := by
  rcases keys_addEdge m e1 e2 f with h1 | ⟨hnm, h1⟩ <;> rw [h1]
  · exact h
  · rw [← List.concat_eq_append]
    exact List.Nodup.concat hnm h

/-- The edge-collection loop preserves key uniqueness. -/
theorem nodup_keys_edgeMapAux :
    ∀ (idx : List ℕ) (face : ℕ) (m : List EdgeRec),
      (m.map keyOf).Nodup → ((edgeMapAux idx face m).map keyOf).Nodup
  | a :: b :: c :: rest, face, m, h => by
      rw [edgeMapAux]
      exact nodup_keys_edgeMapAux rest (face + 1) _
        (nodup_keys_addEdge _ _ _ _
          (nodup_keys_addEdge _ _ _ _ (nodup_keys_addEdge _ _ _ _ h)))
  | [], _, _, h => by simpa [edgeMapAux] using h
  | [_], _, _, h => by simpa [edgeMapAux] using h
  | [_, _], _, _, h => by simpa [edgeMapAux] using h

/-- The edges map of any index array has pairwise distinct keys. -/
theorem nodup_keys_edgeMap (indices : List ℕ) :
    ((edgeMap indices).map keyOf).Nodup :=
  nodup_keys_edgeMapAux indices 0 [] (by simp)

end Xeogl

namespace Xeogl

/-- C7: the edge builder (1) always emits an edge with exactly one adjacent
face, (2) emits an edge shared by two faces exactly when the dot product of
the two face normals is not greater than `cos(DEGTORAD * threshold)`, and
(3) on the single triangle `positions = [0,0,0, 1,0,0, 0,1,0]`,
`indices = [0,1,2]` at threshold 2 degrees it emits exactly the three
boundary edges (0,1), (1,2), (0,2) (the unordered pair (0,2) is the
claim's (2,0): the source normalizes every edge to (min, max)). -/
theorem buildEdgesIndices_spec :
    (∀ (positions : List ℝ) (indices : List ℕ) (dm : Option DecodeMatR)
        (off : ℕ) (θ : ℝ) (e : EdgeRec), e ∈ edgeMap indices → e.face2 = none →
        (e.index1 + off, e.index2 + off) ∈
          buildEdgesIndices positions indices dm off θ) ∧
    (∀ (positions : List ℝ) (indices : List ℕ) (dm : Option DecodeMatR)
        (off : ℕ) (θ : ℝ) (e : EdgeRec) (f2 : ℕ),
        e ∈ edgeMap indices → e.face2 = some f2 →
        ((e.index1 + off, e.index2 + off) ∈
            buildEdgesIndices positions indices dm off θ ↔
          ¬ dot3 ((faceNormals positions dm indices).getD e.face1 (0, 0, 0))
              ((faceNormals positions dm indices).getD f2 (0, 0, 0)) >
              Real.cos (DEGTORAD * θ))) ∧
    buildEdgesIndices [0, 0, 0, 1, 0, 0, 0, 1, 0] [0, 1, 2] none 0 2 =
      [(0, 1), (1, 2), (0, 2)] := by
  refine ⟨?_, ?_, ?_⟩
  · intro positions indices dm off θ e he hf
    unfold buildEdgesIndices
    exact (mem_filterEdges _ _ _ _ _).mpr ⟨e, he, rfl, by simp [hf]⟩
  · intro positions indices dm off θ e f2 he hf
    unfold buildEdgesIndices
    constructor
    · intro hp
      obtain ⟨e2, he2, hp2, hk⟩ := (mem_filterEdges _ _ _ _ _).mp hp
      have hkey : keyOf e2 = keyOf e := by
        have h1 := (Prod.mk.injEq _ _ _ _).mp hp2
        simp only [keyOf, Prod.mk.injEq]
        omega
      have he2e : e2 = e :=
        List.inj_on_of_nodup_map (nodup_keys_edgeMap indices) he2 he hkey
      subst he2e
      exact hk f2 hf
    · intro hd
      refine (mem_filterEdges _ _ _ _ _).mpr ⟨e, he, rfl, ?_⟩
      intro f2x hf2x
      rw [hf] at hf2x
      cases hf2x
      exact hd
  · unfold buildEdgesIndices
    have hmap : edgeMap [0, 1, 2] =
        [{ index1 := 0, index2 := 1, face1 := 0, face2 := none },
         { index1 := 1, index2 := 2, face1 := 0, face2 := none },
         { index1 := 0, index2 := 2, face1 := 0, face2 := none }] := by
      decide
    rw [hmap]
    simp [filterEdges]

/-- Witness for C7 at the single-triangle scenario: the boundary edge
(0, 1) has one adjacent face and is emitted. -/
theorem buildEdgesIndices_spec_witness :
    ({ index1 := 0, index2 := 1, face1 := 0, face2 := none } : EdgeRec) ∈
      edgeMap [0, 1, 2] ∧
    ((0 + 0 : ℕ), (1 + 0 : ℕ)) ∈
      buildEdgesIndices [0, 0, 0, 1, 0, 0, 0, 1, 0] [0, 1, 2] none 0 2 :=
  ⟨by decide,
   buildEdgesIndices_spec.1 [0, 0, 0, 1, 0, 0, 0, 1, 0] [0, 1, 2] none 0 2
     { index1 := 0, index2 := 1, face1 := 0, face2 := none } (by decide) rfl⟩

end Xeogl

namespace Xeogl

/-- C4: for any record with `quantized` true, every attempt to set
`positions` (of any length, including the stored length) is rejected as a
no-op — the entire record state is returned unchanged — and the
quantized-immutable error is reported. -/
theorem setPositions_quantized_rejected (g : GeomState) (newPositions : List ℚ)
    (h : g.quantized = true) :
    (setGeometryPositions g newPositions).1 = g ∧
    (setGeometryPositions g newPositions).2 = some SetErr.quantizedImmutable := by
  unfold setGeometryPositions
  rw [if_pos h]
  exact ⟨rfl, rfl⟩

/-- Witness for C4: a quantized record built by the constructor, mutated
with an array of the same length (9 components) as the original. -/
theorem setPositions_quantized_rejected_witness :
    (mkGeometry { positions := some [0, 0, 0, 1, 1, 1, 0, 1, 0],
                  indices := some [0, 1, 2], quantized := true }).quantized = true ∧
    (setGeometryPositions
      (mkGeometry { positions := some [0, 0, 0, 1, 1, 1, 0, 1, 0],
                    indices := some [0, 1, 2], quantized := true })
      [9, 9, 9, 9, 9, 9, 9, 9, 9]).1 =
      mkGeometry { positions := some [0, 0, 0, 1, 1, 1, 0, 1, 0],
                   indices := some [0, 1, 2], quantized := true } ∧
    (setGeometryPositions
      (mkGeometry { positions := some [0, 0, 0, 1, 1, 1, 0, 1, 0],
                    indices := some [0, 1, 2], quantized := true })
      [9, 9, 9, 9, 9, 9, 9, 9, 9]).2 = some SetErr.quantizedImmutable :=
  ⟨rfl,
   (setPositions_quantized_rejected _ [9, 9, 9, 9, 9, 9, 9, 9, 9] rfl).1,
   (setPositions_quantized_rejected _ [9, 9, 9, 9, 9, 9, 9, 9, 9] rfl).2⟩

/-- C5 counterexample: a configuration with no positions (and likewise one
with no indices) is constructed silently — `_init` runs to completion,
fires "created", and reports no error — rather than being rejected.  Only
the combined pool's `addGeometry` refuses such geometries. -/
theorem mkGeometry_missing_attributes_constructed :
    (mkGeometry { indices := some [0, 1, 2] }).created = true ∧
    (mkGeometry { indices := some [0, 1, 2] }).errors = [] ∧
    (mkGeometry { indices := some [0, 1, 2] }).positions = none ∧
    (mkGeometry { positions := some [0, 0, 0, 1, 0, 0, 0, 1, 0] }).created = true ∧
    (mkGeometry { positions := some [0, 0, 0, 1, 0, 0, 0, 1, 0] }).errors = [] ∧
    (mkGeometry { positions := some [0, 0, 0, 1, 0, 0, 0, 1, 0] }).indices = none :=
  ⟨rfl, rfl, rfl, rfl, rfl, rfl⟩

/-- C10: the constructor stores `cfg.ghostEdgeThreshold || 2.0`: an absent
or zero (falsy) threshold yields the default 2 degrees — a caller cannot
configure a zero-degree threshold — while any nonzero (truthy) value,
negative values included, is stored as given. -/
theorem mkGeometry_ghostEdgeThreshold (cfg : GeomCfg) :
    ((cfg.ghostEdgeThreshold = none ∨ cfg.ghostEdgeThreshold = some 0) →
      (mkGeometry cfg).ghostEdgeThreshold = 2) ∧
    (∀ t : ℚ, cfg.ghostEdgeThreshold = some t → t ≠ 0 →
      (mkGeometry cfg).ghostEdgeThreshold = t) := by
  have key : (mkGeometry cfg).ghostEdgeThreshold =
      (match cfg.ghostEdgeThreshold with
       | none => 2
       | some t => if t = 0 then 2 else t) := by
    unfold mkGeometry
    by_cases hc : (cfg.indices.isSome && (!bigIndicesSupported && cfg.indicesAreUint32)) = true
    · rw [if_pos hc]
    · rw [if_neg hc]
  constructor
  · rintro (h | h) <;> rw [key, h] <;> simp
  · intro t ht hne
    rw [key, ht]
    simp [hne]

/-- Witness for C10: a zero threshold falls back to 2; a negative threshold
is stored as given. -/
theorem mkGeometry_ghostEdgeThreshold_witness :
    (mkGeometry { ghostEdgeThreshold := some 0 }).ghostEdgeThreshold = 2 ∧
    (mkGeometry { ghostEdgeThreshold := some (-5) }).ghostEdgeThreshold = -5 :=
  ⟨(mkGeometry_ghostEdgeThreshold _).1 (Or.inr rfl),
   (mkGeometry_ghostEdgeThreshold _).2 (-5) rfl (by norm_num)⟩

end Xeogl
